import Mathlib

/-!
Shallow embedding of the Requested Task Manager (RTM) from
`src/golem/task/requestedtaskmanager.py`.

The persistent store (`RequestedTask`, `RequestedSubtask` rows) is modelled
as lists inside an explicit `RTMState`; peewee `get`/`save`/`create` become
list lookup / positional update / append.  App Client calls are external
input: each operation takes the boolean or descriptor the client would
return as an argument.  Errors become an `RTMError` sum type; `await`
points need no special treatment because every claim is about the
sequential behaviour of one operation.  `ProviderComputeTimers` is a pure
event sink never consulted by RTM logic and is not modelled; App Client
`shutdown` calls are recorded as events so that claims about them can be
stated.
-/

namespace RTM

/-- Modelled from the spec: `TaskStatus` lives in `golem/task/taskstate.py`,
which is not among the provided sources; the enumeration and its predicates
are taken verbatim from spec section 3. -/
inductive TaskStatus where
  | creating
  | starting
  | sending
  | waiting
  | computing
  | finished
  | aborted
  | timeout
  | failed
deriving DecidableEq, Repr

/-- Modelled from the spec: `isPreparing()` holds in `{creating, starting}`. -/
def TaskStatus.is_preparing : TaskStatus → Bool
  | .creating => true
  | .starting => true
  | _ => false

/-- Modelled from the spec: `isActive()` holds in
`{sending, waiting, computing, starting}`. -/
def TaskStatus.is_active : TaskStatus → Bool
  | .sending => true
  | .waiting => true
  | .computing => true
  | .starting => true
  | _ => false

/-- Modelled from the spec: `isCompleted()` holds in
`{finished, aborted, timeout, failed}`. -/
def TaskStatus.is_completed : TaskStatus → Bool
  | .finished => true
  | .aborted => true
  | .timeout => true
  | .failed => true
  | _ => false

/-- Modelled from the spec: `SubtaskStatus` lives in
`golem/task/taskstate.py`, not among the provided sources; taken from spec
section 3. -/
inductive SubtaskStatus where
  | starting
  | downloading
  | verifying
  | finished
  | failure
  | cancelled
deriving DecidableEq, Repr

/-- Modelled from the spec: a subtask status is active in
`{starting, downloading, verifying}`. -/
def SubtaskStatus.is_active : SubtaskStatus → Bool
  | .starting => true
  | .downloading => true
  | .verifying => true
  | _ => false

/-- Identity of a remote provider (`ComputingNode` row). -/
structure ComputingNode where
  node_id : String
  name : String
deriving DecidableEq, Repr

/-- Row of the `RequestedTask` table.  Opaque payloads (`app_params`) and
paths are modelled as strings; timeouts are naturals (milliseconds). -/
structure RequestedTask where
  task_id : String
  app_id : String
  name : String
  environment : String
  status : TaskStatus
  task_timeout : Nat
  subtask_timeout : Nat
  start_time : Nat
  max_price_per_hour : Nat
  max_subtasks : Nat
  output_directory : String
  resources : List String
  app_params : String
deriving DecidableEq, Repr

/-- Row of the `RequestedSubtask` table.  The foreign key `task` is the
parent's `task_id`; `computing_node` is the provider row. -/
structure RequestedSubtask where
  subtask_id : String
  task_id : String
  status : SubtaskStatus
  payload : String
  inputs : List String
  start_time : Nat
  price : Nat
  computing_node : ComputingNode
deriving DecidableEq, Repr

/-- Argument record of `create_task` (the `CreateTaskParams` dataclass). -/
structure CreateTaskParams where
  app_id : String
  name : String
  environment : String
  task_timeout : Nat
  subtask_timeout : Nat
  output_directory : String
  resources : List String
  max_subtasks : Nat
  max_price_per_hour : Nat
  concent_enabled : Bool
deriving DecidableEq, Repr

/-- Return value of `get_next_subtask` (the `SubtaskDefinition` dataclass). -/
structure SubtaskDefinition where
  subtask_id : String
  resources : List String
  params : String
  deadline : Nat
deriving DecidableEq, Repr

/-- Result of the App Client `next_subtask` verb. -/
structure SubtaskDescriptor where
  subtask_id : String
  params : String
  resources : List String
deriving DecidableEq, Repr

/-- Abstract error kinds of the operations, following the taxonomy of spec
section 7.  `assignmentRefused` carries the number (1-5) of the violated
admission rule of `get_next_subtask`; in the source rule 1 surfaces as a
row-lookup exception and rules 2-5 as `RuntimeError`, all classified under
`AssignmentRefused` by the spec.  `keyError` models the Python `KeyError`
raised by `self._app_clients[app_id]` on a missing map entry. -/
inductive RTMError where
  | taskNotFound
  | subtaskNotFound
  | alreadyInitialized
  | alreadyStarted
  | taskNotActive
  | assignmentRefused (rule : Nat)
  | environmentDisabled
  | appClientError
  | assertionFailed
  | keyError (app_id : String)
deriving DecidableEq, Repr

/-- Observable side effect: an App Client `shutdown()` call. -/
inductive Event where
  | shutdown (app_id : String)
deriving DecidableEq, Repr

/-- Whole-manager state: the requestor's public key, the two store tables
and the `_app_clients` map (as the list of installed `app_id` keys). -/
structure RTMState where
  public_key : String
  tasks : List RequestedTask
  subtasks : List RequestedSubtask
  app_clients : List String
deriving DecidableEq, Repr

/-- Store lookup `RequestedTask.get(RequestedTask.task_id == task_id)`. -/
def findTask (st : RTMState) (tid : String) : Option RequestedTask :=
  st.tasks.find? (fun t => t.task_id == tid)

/-- Store lookup
`RequestedSubtask.get(RequestedSubtask.subtask_id == subtask_id)`. -/
def findSubtask (st : RTMState) (sid : String) : Option RequestedSubtask :=
  st.subtasks.find? (fun s => s.subtask_id == sid)

/-- Persist `task.status = ns; task.save()` for the row keyed `tid`. -/
def updateTaskStatus (st : RTMState) (tid : String) (ns : TaskStatus) :
    RTMState :=
  { st with tasks := st.tasks.map (fun t =>
      if t.task_id == tid then { t with status := ns } else t) }

/-- Persist `subtask.status = ns; subtask.save()` for the row keyed `sid`. -/
def updateSubtaskStatus (st : RTMState) (sid : String) (ns : SubtaskStatus) :
    RTMState :=
  { st with subtasks := st.subtasks.map (fun s =>
      if s.subtask_id == sid then { s with status := ns } else s) }

/-- Aggregate count behind `_get_unfinished_subtasks`: subtasks of the task
`tid` assigned to `node` (foreign keys compare by `node_id`) whose status is
not `finished`. -/
def getUnfinishedSubtasks (st : RTMState) (tid : String)
    (node : ComputingNode) : Nat :=
  (st.subtasks.filter (fun s =>
      s.computing_node.node_id == node.node_id
      && s.task_id == tid
      && s.status != SubtaskStatus.finished)).length

/-- Aggregate count that the completion check of `verify` builds (subtasks
of the task with status `finished`).  The source never evaluates it: see
the comment inside `verify`. -/
def finishedSubtaskCount (st : RTMState) (tid : String) : Nat :=
  (st.subtasks.filter (fun s =>
      s.task_id == tid && s.status == SubtaskStatus.finished)).length

/-- Count of tasks of `app_id` in an unfinished status, as enumerated in
`_shutdown_app_client`. -/
def unfinishedTaskCount (st : RTMState) (app_id : String) : Nat :=
  (st.tasks.filter (fun t =>
      t.app_id == app_id
      && (t.status == TaskStatus.sending
          || t.status == TaskStatus.waiting
          || t.status == TaskStatus.starting
          || t.status == TaskStatus.computing))).length

/-- Embedding of `_get_app_client`: if no client is installed for `app_id`,
building the Task API Service requires the environment to be enabled
(`env_enabled` is the Environment Manager's answer); on success the client
is installed in the map. -/
def getAppClient (st : RTMState) (app_id : String) (env_enabled : Bool) :
    RTMState × Except RTMError Unit :=
  if app_id ∈ st.app_clients then (st, .ok ())
  else if env_enabled then
    ({ st with app_clients := st.app_clients ++ [app_id] }, .ok ())
  else (st, .error .environmentDisabled)

/-- Embedding of `_shutdown_app_client`: when no task of `app_id` is left
in `{sending, waiting, starting, computing}`, call `shutdown()` on the
mapped client and delete the entry — `self._app_clients[app_id]` raises
`KeyError` when the entry is absent. -/
def shutdownAppClient (st : RTMState) (app_id : String) :
    RTMState × List Event × Except RTMError Unit :=
  if unfinishedTaskCount st app_id == 0 then
    if app_id ∈ st.app_clients then
      ({ st with app_clients := st.app_clients.filter (fun a => a != app_id) },
       [Event.shutdown app_id], .ok ())
    else (st, [], .error (.keyError app_id))
  else (st, [], .ok ())

/-- Embedding of `RequestedTaskManager.create_task`: insert a new
`RequestedTask` row with `status = creating` and return its id.  The id
generator (`idgenerator.generate_id(public_key)`) and the wall clock are
external inputs `tid` and `now`. -/
def create_task (st : RTMState) (golem_params : CreateTaskParams)
    (app_params : String) (tid : String) (now : Nat) : RTMState × String :=
  let task : RequestedTask :=
    { task_id := tid
      app_id := golem_params.app_id
      name := golem_params.name
      environment := golem_params.environment
      status := TaskStatus.creating
      task_timeout := golem_params.task_timeout
      subtask_timeout := golem_params.subtask_timeout
      start_time := now
      max_price_per_hour := golem_params.max_price_per_hour
      max_subtasks := golem_params.max_subtasks
      output_directory := golem_params.output_directory
      resources := golem_params.resources
      app_params := app_params }
  ({ st with tasks := st.tasks ++ [task] }, tid)

/-- Embedding of `RequestedTaskManager.init_task`.  `env_enabled` is the
Environment Manager's answer used by `_get_app_client`; `create_ok` is
whether the App Client `create_task` verb succeeds.  The task row is never
written: its status stays `creating` on every path. -/
def init_task (st : RTMState) (tid : String)
    (env_enabled create_ok : Bool) : RTMState × Except RTMError Unit :=
  match findTask st tid with
  | none => (st, .error .taskNotFound)
  | some task =>
    if task.status != TaskStatus.creating then
      (st, .error .alreadyInitialized)
    else
      match getAppClient st task.app_id env_enabled with
      | (st1, .error e) => (st1, .error e)
      | (st1, .ok _) =>
        if create_ok then (st1, .ok ()) else (st1, .error .appClientError)

/-- Embedding of `RequestedTaskManager.start_task`. -/
def start_task (st : RTMState) (tid : String) :
    RTMState × Except RTMError Unit :=
  match findTask st tid with
  | none => (st, .error .taskNotFound)
  | some task =>
    if !task.status.is_preparing then (st, .error .alreadyStarted)
    else (updateTaskStatus st tid TaskStatus.waiting, .ok ())

/-- Embedding of `RequestedTaskManager.task_exists`. -/
def task_exists (st : RTMState) (tid : String) : Bool :=
  (findTask st tid).isSome

/-- Embedding of `RequestedTaskManager.has_pending_subtasks`: loads the
task, acquires the App Client, then forwards the verb — whose answer is
the external input `pending`. -/
def has_pending_subtasks (st : RTMState) (tid : String)
    (env_enabled pending : Bool) : RTMState × Except RTMError Bool :=
  match findTask st tid with
  | none => (st, .error .taskNotFound)
  | some task =>
    match getAppClient st task.app_id env_enabled with
    | (st1, .error e) => (st1, .error e)
    | (st1, .ok _) => (st1, .ok pending)

/-- Embedding of `RequestedTaskManager.get_next_subtask`.  The admission
checks appear in source order; the row-lookup failure of rule 1 and the
`RuntimeError`s of rules 2-5 are all rendered as `assignmentRefused` with
the rule number, following the spec's error taxonomy.  `pending` is the
App Client's `has_pending_subtasks` answer, `descriptor` its
`next_subtask` result, and `now` the wall clock. -/
def get_next_subtask (st : RTMState) (tid : String) (node : ComputingNode)
    (env_enabled pending : Bool) (descriptor : SubtaskDescriptor)
    (now : Nat) : RTMState × Except RTMError SubtaskDefinition :=
  match findTask st tid with
  | none => (st, .error (.assignmentRefused 1))
  | some task =>
    if node.node_id == st.public_key then
      (st, .error (.assignmentRefused 2))
    else if !task.status.is_active then
      (st, .error (.assignmentRefused 3))
    else if getUnfinishedSubtasks st tid node > 0 then
      (st, .error (.assignmentRefused 4))
    else
      match has_pending_subtasks st tid env_enabled pending with
      | (st1, .error e) => (st1, .error e)
      | (st1, .ok p) =>
        if !p then (st1, .error (.assignmentRefused 5))
        else
          match getAppClient st1 task.app_id env_enabled with
          | (st2, .error e) => (st2, .error e)
          | (st2, .ok _) =>
            let subtask : RequestedSubtask :=
              { subtask_id := descriptor.subtask_id
                task_id := tid
                status := SubtaskStatus.starting
                payload := descriptor.params
                inputs := descriptor.resources
                start_time := now
                price := task.max_price_per_hour
                computing_node := node }
            let st3 := { st2 with subtasks := st2.subtasks ++ [subtask] }
            (st3,
             .ok { subtask_id := subtask.subtask_id
                   resources := subtask.inputs
                   params := subtask.payload
                   deadline := subtask.start_time + task.subtask_timeout })

/-- Embedding of `RequestedTaskManager.verify`.  `result` is the App
Client's `verify` answer.

The completion check of the source builds the finished-subtask Count query
but never calls `.scalar()` on it, so `finished_subtasks >= task.max_subtasks`
compares the un-evaluated peewee query object with an integer; that
produces a peewee `Expression` node (queries inherit the rich comparisons
of `_HashableSource`), and an `Expression` defines no `__bool__`, so the
`if` branch is taken unconditionally.  The embedding reproduces that: after
a successful verification the task is always moved to `finished` and the
teardown sweep always runs, whatever `finishedSubtaskCount` is. -/
def verify (st : RTMState) (tid sid : String) (env_enabled result : Bool) :
    RTMState × List Event × Except RTMError Bool :=
  match findTask st tid with
  | none => (st, [], .error .taskNotFound)
  | some task =>
    if !task.status.is_active then (st, [], .error .taskNotActive)
    else
      match findSubtask st sid with
      | none => (st, [], .error .subtaskNotFound)
      | some subtask =>
        if subtask.task_id != tid then (st, [], .error .assertionFailed)
        else
          match getAppClient st task.app_id env_enabled with
          | (st1, .error e) => (st1, [], .error e)
          | (st1, .ok _) =>
            let st2 := updateSubtaskStatus st1 sid SubtaskStatus.verifying
            let st3 := updateSubtaskStatus st2 sid
              (if result then SubtaskStatus.finished
               else SubtaskStatus.failure)
            if result then
              let st4 := updateTaskStatus st3 tid TaskStatus.finished
              match shutdownAppClient st4 task.app_id with
              | (st5, evs, .ok _) => (st5, evs, .ok true)
              | (st5, evs, .error e) => (st5, evs, .error e)
            else (st3, [], .ok false)

/-- The subtask sweep of `abort_task`: every subtask of the task whose
status is in `{starting, downloading, verifying}` is set to `cancelled`
and saved. -/
def cancelActiveSubtasks (st : RTMState) (tid : String) : RTMState :=
  { st with subtasks := st.subtasks.map (fun s =>
      if s.task_id == tid
          && (s.status == SubtaskStatus.starting
              || s.status == SubtaskStatus.downloading
              || s.status == SubtaskStatus.verifying) then
        { s with status := SubtaskStatus.cancelled }
      else s) }

/-- Embedding of `RequestedTaskManager.abort_task`. -/
def abort_task (st : RTMState) (tid : String) :
    RTMState × List Event × Except RTMError Unit :=
  match findTask st tid with
  | none => (st, [], .error .taskNotFound)
  | some task =>
    if !task.status.is_active then (st, [], .error .taskNotActive)
    else
      shutdownAppClient
        (cancelActiveSubtasks (updateTaskStatus st tid TaskStatus.aborted)
          tid)
        task.app_id

/-- Spec-side definition: the admission rules of `getNextSubtask` in the
order the spec states them (section 4.1.8), returning the number of the
first violated rule, or `none` when all pass.  Compared against the code's
`get_next_subtask` in the admission-order theorem. -/
def firstViolatedRule (st : RTMState) (tid : String) (node : ComputingNode)
    (pending : Bool) : Option Nat :=
  match findTask st tid with
  | none => some 1
  | some task =>
    if node.node_id == st.public_key then some 2
    else if !task.status.is_active then some 3
    else if getUnfinishedSubtasks st tid node > 0 then some 4
    else if !pending then some 5
    else none

/-! Concrete scenario used by witnesses and counterexample evaluations: one
task of app `"a"` with `max_subtasks = 2`, driven through
create → initialize → start → assign one subtask to provider `"abc"`. -/

/-- Creation parameters of the scenario task (`max_subtasks = 2`). -/
def exParams : CreateTaskParams :=
  { app_id := "a", name := "n", environment := "e", task_timeout := 10,
    subtask_timeout := 5, output_directory := "o", resources := [],
    max_subtasks := 2, max_price_per_hour := 7, concent_enabled := false }

/-- Empty manager state with public key `"pk"`. -/
def exState0 : RTMState :=
  { public_key := "pk", tasks := [], subtasks := [], app_clients := [] }

/-- Scenario provider. -/
def exNode : ComputingNode := { node_id := "abc", name := "abc" }

/-- Scenario App Client `next_subtask` descriptor. -/
def exDescriptor : SubtaskDescriptor :=
  { subtask_id := "s1", params := "p", resources := ["r"] }

/-- State after `create_task` of the scenario task `"t1"` at time 0. -/
def exAfterCreate : RTMState := (create_task exState0 exParams "ap" "t1" 0).1

/-- State after a successful `init_task` (installs the client for `"a"`). -/
def exAfterInit : RTMState := (init_task exAfterCreate "t1" true true).1

/-- State after `start_task` (task `"t1"` is `waiting`). -/
def exAfterStart : RTMState := (start_task exAfterInit "t1").1

/-- State after `get_next_subtask` assigned subtask `"s1"` to the provider
at time 1. -/
def exAfterAssign : RTMState :=
  (get_next_subtask exAfterStart "t1" exNode true true exDescriptor 1).1

/-- The task row of `"t1"` as it stands in `exAfterAssign` (waiting). -/
def exWaitingRow : RequestedTask :=
  { task_id := "t1", app_id := "a", name := "n", environment := "e",
    status := TaskStatus.waiting, task_timeout := 10, subtask_timeout := 5,
    start_time := 0, max_price_per_hour := 7, max_subtasks := 2,
    output_directory := "o", resources := [], app_params := "ap" }

/-- The subtask row of `"s1"` as it stands in `exAfterAssign`. -/
def exSubtaskRow : RequestedSubtask :=
  { subtask_id := "s1", task_id := "t1",
    status := SubtaskStatus.starting, payload := "p", inputs := ["r"],
    start_time := 1, price := 7, computing_node := exNode }

/-- State after `verify` of `"s1"` succeeded (App Client answered true). -/
def exFinal : RTMState := (verify exAfterAssign "t1" "s1" true true).1

/-- State after `verify` of `"s1"` failed (App Client answered false). -/
def exAfterFailedVerify : RTMState :=
  (verify exAfterAssign "t1" "s1" true false).1

/-! Helper lemmas about the store primitives. -/

theorem find?_update_tasks (l : List RequestedTask) (tid : String)
    (ns : TaskStatus) :
    (l.map (fun t =>
        if t.task_id == tid then { t with status := ns } else t)).find?
        (fun t => t.task_id == tid)
      = (l.find? (fun t => t.task_id == tid)).map
          (fun t => { t with status := ns }) := by
  induction l with
  | nil => rfl
  | cons t l ih =>
    by_cases heq : t.task_id = tid
    · simp [List.map_cons, List.find?_cons, heq, -List.find?_map]
    · have h2 : ((if t.task_id == tid then { t with status := ns }
          else t).task_id == tid) = false := by simp [heq]
      have h3 : (t.task_id == tid) = false := by simp [heq]
      simp only [List.map_cons, List.find?_cons]
      rw [h2, h3]
      exact ih

theorem find?_update_subtasks (l : List RequestedSubtask) (sid : String)
    (ns : SubtaskStatus) :
    (l.map (fun s =>
        if s.subtask_id == sid then { s with status := ns } else s)).find?
        (fun s => s.subtask_id == sid)
      = (l.find? (fun s => s.subtask_id == sid)).map
          (fun s => { s with status := ns }) := by
  induction l with
  | nil => rfl
  | cons s l ih =>
    by_cases heq : s.subtask_id = sid
    · simp [List.map_cons, List.find?_cons, heq, -List.find?_map]
    · have h2 : ((if s.subtask_id == sid then { s with status := ns }
          else s).subtask_id == sid) = false := by simp [heq]
      have h3 : (s.subtask_id == sid) = false := by simp [heq]
      simp only [List.map_cons, List.find?_cons]
      rw [h2, h3]
      exact ih

theorem findTask_updateTaskStatus (st : RTMState) (tid : String)
    (ns : TaskStatus) :
    findTask (updateTaskStatus st tid ns) tid
      = (findTask st tid).map (fun t => { t with status := ns }) :=
  find?_update_tasks st.tasks tid ns

theorem findSubtask_updateSubtaskStatus (st : RTMState) (sid : String)
    (ns : SubtaskStatus) :
    findSubtask (updateSubtaskStatus st sid ns) sid
      = (findSubtask st sid).map (fun s => { s with status := ns }) :=
  find?_update_subtasks st.subtasks sid ns

theorem getAppClient_ok (st : RTMState) (a : String) (e : Bool)
    (h : a ∈ st.app_clients ∨ e = true) :
    ∃ ac, getAppClient st a e = ({ st with app_clients := ac }, .ok ()) := by
  by_cases h1 : a ∈ st.app_clients
  · exact ⟨st.app_clients, by simp [getAppClient, h1]⟩
  · cases e with
    | true => exact ⟨st.app_clients ++ [a], by simp [getAppClient, h1]⟩
    | false =>
      rcases h with h | h
      · exact absurd h h1
      · exact absurd h (by simp)

theorem getAppClient_cases (st : RTMState) (a : String) (e : Bool) :
    (∃ ac, getAppClient st a e = ({ st with app_clients := ac }, .ok ()))
    ∨ getAppClient st a e = (st, .error .environmentDisabled) := by
  by_cases h1 : a ∈ st.app_clients
  · exact Or.inl ⟨st.app_clients, by simp [getAppClient, h1]⟩
  · cases e with
    | true =>
      exact Or.inl ⟨st.app_clients ++ [a], by simp [getAppClient, h1]⟩
    | false => exact Or.inr (by simp [getAppClient, h1])

theorem shutdownAppClient_fields (st : RTMState) (a : String) :
    (shutdownAppClient st a).1.tasks = st.tasks
    ∧ (shutdownAppClient st a).1.subtasks = st.subtasks := by
  unfold shutdownAppClient
  split
  · split <;> exact ⟨rfl, rfl⟩
  · exact ⟨rfl, rfl⟩

/-- C6: `startTask(taskId)` fails with `AlreadyStarted` exactly when the
task's `status.isPreparing()` is false; on success it sets the task's
status to `waiting`, so afterwards `isActive()` holds, and consequently a
second `startTask` on the same task fails with `AlreadyStarted`. -/
theorem start_task_spec (st : RTMState) (tid : String)
    (task : RequestedTask) (h : findTask st tid = some task) :
    ((start_task st tid).2 = .error .alreadyStarted
      ↔ task.status.is_preparing = false)
    ∧ (task.status.is_preparing = true →
        (start_task st tid).2 = Except.ok ()
        ∧ findTask (start_task st tid).1 tid
            = some { task with status := TaskStatus.waiting }
        ∧ TaskStatus.is_active TaskStatus.waiting = true
        ∧ (start_task (start_task st tid).1 tid).2
            = .error .alreadyStarted) := by
  have hfst : (start_task st tid).1
      = if !task.status.is_preparing then st
        else updateTaskStatus st tid TaskStatus.waiting := by
    simp only [start_task, h]
    split <;> rfl
  have hsnd : (start_task st tid).2
      = if !task.status.is_preparing then Except.error RTMError.alreadyStarted
        else Except.ok () := by
    simp only [start_task, h]
    split <;> rfl
  by_cases hp : task.status.is_preparing = true
  · have hfind : findTask (start_task st tid).1 tid
        = some { task with status := TaskStatus.waiting } := by
      rw [hfst]
      simp only [hp, Bool.not_true, Bool.false_eq_true, if_false]
      rw [findTask_updateTaskStatus, h]
      rfl
    refine ⟨?_, fun _ => ⟨?_, hfind, rfl, ?_⟩⟩
    · rw [hsnd]
      simp [hp]
    · rw [hsnd]
      simp [hp]
    · generalize hg2 : (start_task st tid).1 = st2 at hfind ⊢
      simp only [start_task, hfind]
      rfl
  · have hp' : task.status.is_preparing = false := by
      simpa using hp
    refine ⟨?_, fun hc => absurd hc hp⟩
    rw [hsnd]
    simp [hp']

/-- C6 witness: on the freshly created scenario task (status `creating`,
which is preparing) `start_task` succeeds, moves the row to `waiting`, and
a second call fails with `AlreadyStarted`. -/
theorem start_task_spec_witness :
    (start_task exAfterCreate "t1").2 = Except.ok ()
    ∧ findTask (start_task exAfterCreate "t1").1 "t1"
        = some { exWaitingRow with status := TaskStatus.waiting }
    ∧ TaskStatus.is_active TaskStatus.waiting = true
    ∧ (start_task (start_task exAfterCreate "t1").1 "t1").2
        = .error .alreadyStarted :=
  (start_task_spec exAfterCreate "t1"
      { exWaitingRow with status := TaskStatus.creating } rfl).2 rfl

/-- C7: `initTask(taskId)` fails with `AlreadyInitialized` exactly when the
task's status is not `creating`, and on no path does it write the task
table, so the status stays `creating` after both a successful and a failed
App Client call. -/
theorem init_task_spec (st : RTMState) (tid : String)
    (env_enabled create_ok : Bool) (task : RequestedTask)
    (h : findTask st tid = some task) :
    ((init_task st tid env_enabled create_ok).2
        = .error .alreadyInitialized
      ↔ task.status ≠ TaskStatus.creating)
    ∧ (init_task st tid env_enabled create_ok).1.tasks = st.tasks := by
  simp only [init_task, h]
  by_cases hs : task.status = TaskStatus.creating
  · have hb : (task.status != TaskStatus.creating) = false := by simp [hs]
    rw [hb]
    rcases getAppClient_cases st task.app_id env_enabled with ⟨ac, hg⟩ | hg <;>
      rw [hg] <;> cases create_ok <;> simp [hs]
  · have hb : (task.status != TaskStatus.creating) = true := by simp [hs]
    rw [hb]
    simp [hs]

/-- C7 witness: on the started scenario task (status `waiting`) `init_task`
fails with `AlreadyInitialized` and leaves the task table unchanged. -/
theorem init_task_spec_witness :
    ((init_task exAfterStart "t1" true true).2
        = .error .alreadyInitialized
      ↔ exWaitingRow.status ≠ TaskStatus.creating)
    ∧ (init_task exAfterStart "t1" true true).1.tasks
        = exAfterStart.tasks :=
  init_task_spec exAfterStart "t1" true true exWaitingRow rfl

/-- C3: when `verify(t, s)` receives `false` from the App Client's verify
call on an active task `t` and its subtask `s`, it returns `false`, the
subtask row ends in `failure`, the task table is untouched (so `t` stays
active), and no App Client `shutdown` is invoked.  The hypothesis `hc`
says the App Client acquisition succeeds (client already installed or the
environment enabled), which the claim presupposes since the client's
answer is received. -/
theorem verify_false_spec (st : RTMState) (tid sid : String)
    (env_enabled : Bool) (task : RequestedTask)
    (subtask : RequestedSubtask)
    (ht : findTask st tid = some task)
    (ha : task.status.is_active = true)
    (hs : findSubtask st sid = some subtask)
    (hb : subtask.task_id = tid)
    (hc : task.app_id ∈ st.app_clients ∨ env_enabled = true) :
    (verify st tid sid env_enabled false).2.2 = Except.ok false
    ∧ (verify st tid sid env_enabled false).1.tasks = st.tasks
    ∧ findSubtask (verify st tid sid env_enabled false).1 sid
        = some { subtask with status := SubtaskStatus.failure }
    ∧ (verify st tid sid env_enabled false).2.1 = [] := by
  obtain ⟨ac, hg⟩ := getAppClient_ok st task.app_id env_enabled hc
  have hbne : (subtask.task_id != tid) = false := by simp [hb]
  have hver : verify st tid sid env_enabled false
      = (updateSubtaskStatus
          (updateSubtaskStatus { st with app_clients := ac } sid
            SubtaskStatus.verifying)
          sid SubtaskStatus.failure, [], Except.ok false) := by
    simp only [verify, ht, ha, hs, hbne, hg, Bool.not_true, Bool.false_eq_true,
      if_false, Bool.false_eq_true]
  rw [hver]
  refine ⟨rfl, rfl, ?_, rfl⟩
  rw [findSubtask_updateSubtaskStatus, findSubtask_updateSubtaskStatus]
  have hs' : findSubtask { st with app_clients := ac } sid = some subtask := hs
  rw [hs']
  rfl

/-- C3 witness: failing verification of subtask `"s1"` in the assigned
scenario state returns false, leaves the task table unchanged, moves the
subtask to `failure`, and emits no shutdown event. -/
theorem verify_false_spec_witness :
    (verify exAfterAssign "t1" "s1" true false).2.2 = Except.ok false
    ∧ (verify exAfterAssign "t1" "s1" true false).1.tasks
        = exAfterAssign.tasks
    ∧ findSubtask (verify exAfterAssign "t1" "s1" true false).1 "s1"
        = some { exSubtaskRow with status := SubtaskStatus.failure }
    ∧ (verify exAfterAssign "t1" "s1" true false).2.1 = [] :=
  verify_false_spec exAfterAssign "t1" "s1" true exWaitingRow exSubtaskRow
    rfl rfl rfl rfl (Or.inr rfl)

theorem shutdownAppClient_result (st : RTMState) (a : String) :
    (shutdownAppClient st a).2.2 = Except.ok ()
    ∨ (shutdownAppClient st a).2.2 = .error (.keyError a) := by
  unfold shutdownAppClient
  split
  · split
    · exact Or.inl rfl
    · exact Or.inr rfl
  · exact Or.inl rfl

/-- C8: `abortTask(taskId)` fails with `TaskNotActive` exactly when the
task is not active; when it is active, the task row is set to `aborted`,
every subtask of the task in an active status (`starting`, `downloading`,
`verifying`) is replaced by the same row with status `cancelled`, and
afterwards no subtask of the task is in an active status. -/
theorem abort_task_spec (st : RTMState) (tid : String)
    (task : RequestedTask) (h : findTask st tid = some task) :
    ((abort_task st tid).2.2 = .error .taskNotActive
      ↔ task.status.is_active = false)
    ∧ (task.status.is_active = true →
        findTask (abort_task st tid).1 tid
            = some { task with status := TaskStatus.aborted }
        ∧ (∀ s ∈ st.subtasks, s.task_id = tid → s.status.is_active = true →
            { s with status := SubtaskStatus.cancelled }
              ∈ (abort_task st tid).1.subtasks)
        ∧ (∀ s ∈ (abort_task st tid).1.subtasks, s.task_id = tid →
            s.status.is_active = false)) := by
  by_cases ha : task.status.is_active = true
  · have hred : abort_task st tid
        = shutdownAppClient
            (cancelActiveSubtasks (updateTaskStatus st tid TaskStatus.aborted)
              tid)
            task.app_id := by
      simp only [abort_task, h, ha, Bool.not_true, Bool.false_eq_true,
        if_false]
    have hsubs : (abort_task st tid).1.subtasks
        = st.subtasks.map (fun s =>
            if s.task_id == tid
                && (s.status == SubtaskStatus.starting
                    || s.status == SubtaskStatus.downloading
                    || s.status == SubtaskStatus.verifying) then
              { s with status := SubtaskStatus.cancelled }
            else s) := by
      rw [hred, (shutdownAppClient_fields _ _).2]
      rfl
    refine ⟨?_, fun _ => ⟨?_, ?_, ?_⟩⟩
    · rw [hred]
      rcases shutdownAppClient_result
          (cancelActiveSubtasks (updateTaskStatus st tid TaskStatus.aborted)
            tid)
          task.app_id with hr | hr <;> simp [hr, ha]
    · have hft : findTask (abort_task st tid).1 tid
          = findTask (updateTaskStatus st tid TaskStatus.aborted) tid := by
        unfold findTask
        rw [hred, (shutdownAppClient_fields _ _).1]
        rfl
      rw [hft, findTask_updateTaskStatus, h]
      rfl
    · intro s hs h1 h2
      rw [hsubs]
      refine List.mem_map.mpr ⟨s, hs, ?_⟩
      cases hstat : s.status <;> simp_all [SubtaskStatus.is_active]
    · intro s hs h1
      rw [hsubs] at hs
      obtain ⟨s0, hs0, rfl⟩ := List.mem_map.1 hs
      by_cases hcond : (s0.task_id == tid
          && (s0.status == SubtaskStatus.starting
              || s0.status == SubtaskStatus.downloading
              || s0.status == SubtaskStatus.verifying)) = true
      · simp [hcond, SubtaskStatus.is_active]
      · simp only [hcond, Bool.false_eq_true, if_false] at h1 ⊢
        cases hstat : s0.status <;> simp_all [SubtaskStatus.is_active]
  · have ha' : task.status.is_active = false := by simpa using ha
    have hred : abort_task st tid = (st, [], .error .taskNotActive) := by
      simp only [abort_task, h, ha', Bool.not_false, if_true]
    rw [hred]
    exact ⟨by simp [ha'], fun hc => absurd hc ha⟩

/-- C8 witness: aborting the assigned scenario task (active, one subtask
in `starting`) moves the task row to `aborted`, puts the cancelled copy of
the subtask in the table, and leaves no active subtask of the task. -/
theorem abort_task_spec_witness :
    findTask (abort_task exAfterAssign "t1").1 "t1"
        = some { exWaitingRow with status := TaskStatus.aborted }
    ∧ (∀ s ∈ exAfterAssign.subtasks, s.task_id = "t1" →
        s.status.is_active = true →
        { s with status := SubtaskStatus.cancelled }
          ∈ (abort_task exAfterAssign "t1").1.subtasks)
    ∧ (∀ s ∈ (abort_task exAfterAssign "t1").1.subtasks, s.task_id = "t1" →
        s.status.is_active = false) :=
  (abort_task_spec exAfterAssign "t1" exWaitingRow rfl).2 rfl

/-- C4: `getNextSubtask` evaluates its admission rules in the stated order
(task exists; provider is not the requestor itself; task active; no
unfinished subtask of this provider for this task; pending subtasks
available) and the first violated rule, as computed by the spec-side
`firstViolatedRule`, makes the call fail with `AssignmentRefused` carrying
that rule, with no subtask row inserted.  The environment is enabled
(`EnvironmentDisabled` is a separate error kind outside the claim). -/
theorem get_next_subtask_admission_order
    (st : RTMState) (tid : String) (node : ComputingNode)
    (pending : Bool) (descriptor : SubtaskDescriptor) (now : Nat) (k : Nat)
    (h : firstViolatedRule st tid node pending = some k) :
    (get_next_subtask st tid node true pending descriptor now).2
        = .error (.assignmentRefused k)
    ∧ (get_next_subtask st tid node true pending descriptor now).1.subtasks
        = st.subtasks := by
  unfold firstViolatedRule at h
  cases ht : findTask st tid with
  | none =>
    rw [ht] at h
    have hk : (1 : Nat) = k := Option.some.inj h
    subst hk
    constructor <;> simp [get_next_subtask, ht]
  | some task =>
    rw [ht] at h
    by_cases h2 : (node.node_id == st.public_key) = true
    · simp only [h2, if_true] at h
      have hk : (2 : Nat) = k := Option.some.inj h
      subst hk
      constructor <;> simp [get_next_subtask, ht, h2]
    · have h2' : (node.node_id == st.public_key) = false := by
        simpa using h2
      by_cases h3 : task.status.is_active = true
      · by_cases h4 : getUnfinishedSubtasks st tid node > 0
        · simp only [h2', h3, h4, Bool.false_eq_true, if_false,
            Bool.not_true, if_true] at h
          have hk : (4 : Nat) = k := Option.some.inj h
          subst hk
          constructor <;> simp [get_next_subtask, ht, h2', h3, h4]
        · cases hp : pending with
          | true =>
            simp [h2', h3, h4, hp] at h
          | false =>
            simp only [h2', h3, h4, hp, Bool.false_eq_true, if_false,
              Bool.not_true, Bool.not_false, if_true] at h
            have hk : (5 : Nat) = k := Option.some.inj h
            subst hk
            obtain ⟨ac, hg⟩ :=
              getAppClient_ok st task.app_id true (Or.inr rfl)
            have hpend : has_pending_subtasks st tid true false
                = ({ st with app_clients := ac }, Except.ok false) := by
              simp only [has_pending_subtasks, ht, hg]
            constructor <;>
              simp [get_next_subtask, ht, h2', h3, h4, hpend]
      · have h3' : task.status.is_active = false := by simpa using h3
        simp only [h2', h3', Bool.false_eq_true, if_false, Bool.not_false,
          if_true] at h
        have hk : (3 : Nat) = k := Option.some.inj h
        subst hk
        constructor <;> simp [get_next_subtask, ht, h2', h3']

/-- C4 witness: in the assigned scenario state the provider still has the
unfinished subtask `"s1"`, so rule 4 is the first violated rule and a
second assignment is refused with rule 4, inserting nothing. -/
theorem get_next_subtask_admission_order_witness :
    (get_next_subtask exAfterAssign "t1" exNode true true exDescriptor
        2).2 = .error (.assignmentRefused 4)
    ∧ (get_next_subtask exAfterAssign "t1" exNode true true exDescriptor
        2).1.subtasks = exAfterAssign.subtasks :=
  get_next_subtask_admission_order exAfterAssign "t1" exNode true
    exDescriptor 2 4 rfl

/-- C5: when every admission rule passes, `getNextSubtask` inserts exactly
one new `RequestedSubtask` row with status `starting`, payload and inputs
from the App Client descriptor, `startTime = now`, the task's
`maxPricePerHour` as price and the given provider, and returns a
`SubtaskDefinition` carrying the descriptor's id, resources and params and
`deadline = startTime + task.subtaskTimeout`. -/
theorem get_next_subtask_success_spec
    (st : RTMState) (tid : String) (node : ComputingNode)
    (pending : Bool) (descriptor : SubtaskDescriptor) (now : Nat)
    (task : RequestedTask)
    (ht : findTask st tid = some task)
    (h : firstViolatedRule st tid node pending = none) :
    (get_next_subtask st tid node true pending descriptor now).2
        = Except.ok { subtask_id := descriptor.subtask_id,
                      resources := descriptor.resources,
                      params := descriptor.params,
                      deadline := now + task.subtask_timeout }
    ∧ (get_next_subtask st tid node true pending descriptor now).1.subtasks
        = st.subtasks ++
          [{ subtask_id := descriptor.subtask_id, task_id := tid,
             status := SubtaskStatus.starting,
             payload := descriptor.params,
             inputs := descriptor.resources, start_time := now,
             price := task.max_price_per_hour,
             computing_node := node }] := by
  unfold firstViolatedRule at h
  rw [ht] at h
  by_cases h2 : (node.node_id == st.public_key) = true
  · simp [h2] at h
  · have h2' : (node.node_id == st.public_key) = false := by simpa using h2
    by_cases h3 : task.status.is_active = true
    · by_cases h4 : getUnfinishedSubtasks st tid node > 0
      · simp [h2', h3, h4] at h
      · cases hp : pending with
        | false => simp [h2', h3, h4, hp] at h
        | true =>
          obtain ⟨ac, hg⟩ :=
            getAppClient_ok st task.app_id true (Or.inr rfl)
          have hpend : has_pending_subtasks st tid true true
              = ({ st with app_clients := ac }, Except.ok true) := by
            simp only [has_pending_subtasks, ht, hg]
          have hg2 : getAppClient { st with app_clients := ac } task.app_id
              true = ({ st with app_clients := ac }, Except.ok ())
              ∨ ∃ ac2, getAppClient { st with app_clients := ac }
                  task.app_id true
                = ({ st with app_clients := ac2 }, Except.ok ()) := by
            rcases getAppClient_ok { st with app_clients := ac }
                task.app_id true (Or.inr rfl) with ⟨ac2, hh⟩
            exact Or.inr ⟨ac2, hh⟩
          rcases hg2 with hh | ⟨ac2, hh⟩ <;>
            constructor <;>
              simp [get_next_subtask, ht, h2', h3, h4, hpend, hh]
    · have h3' : task.status.is_active = false := by simpa using h3
      simp [h2', h3'] at h

/-- C5 witness: in the started scenario state all admission rules pass and
the assignment inserts the expected `"s1"` row and returns the expected
definition with deadline `1 + 5`. -/
theorem get_next_subtask_success_spec_witness :
    (get_next_subtask exAfterStart "t1" exNode true true exDescriptor
        1).2
        = Except.ok { subtask_id := "s1", resources := ["r"],
                      params := "p", deadline := 1 + 5 }
    ∧ (get_next_subtask exAfterStart "t1" exNode true true exDescriptor
        1).1.subtasks
        = exAfterStart.subtasks ++ [exSubtaskRow] :=
  get_next_subtask_success_spec exAfterStart "t1" exNode true exDescriptor
    1 exWaitingRow rfl rfl

/-- C10: once a subtask of task `t` assigned to provider `p` has reached
`failure` or `cancelled`, every later `getNextSubtask(t, p)` fails with
`AssignmentRefused` regardless of the App Client's pending answer: the
per-provider outstanding count treats every status other than `finished`
as unfinished, so rule 4 (or an earlier rule) always fires. -/
theorem failed_subtask_blocks_provider
    (st : RTMState) (tid : String) (node : ComputingNode)
    (env_enabled pending : Bool) (descriptor : SubtaskDescriptor)
    (now : Nat) (s : RequestedSubtask)
    (hs : s ∈ st.subtasks) (h1 : s.task_id = tid)
    (h2 : s.computing_node.node_id = node.node_id)
    (h3 : s.status = SubtaskStatus.failure
        ∨ s.status = SubtaskStatus.cancelled) :
    getUnfinishedSubtasks st tid node > 0
    ∧ ∃ k, (get_next_subtask st tid node env_enabled pending descriptor
        now).2 = .error (.assignmentRefused k) := by
  have hcount : getUnfinishedSubtasks st tid node > 0 := by
    unfold getUnfinishedSubtasks
    have hpred : (s.computing_node.node_id == node.node_id
        && s.task_id == tid
        && s.status != SubtaskStatus.finished) = true := by
      rcases h3 with h3 | h3 <;> simp [h1, h2, h3]
    exact List.length_pos_of_mem (List.mem_filter.mpr ⟨hs, hpred⟩)
  refine ⟨hcount, ?_⟩
  cases ht : findTask st tid with
  | none => exact ⟨1, by simp [get_next_subtask, ht]⟩
  | some task =>
    by_cases hb : (node.node_id == st.public_key) = true
    · exact ⟨2, by simp [get_next_subtask, ht, hb]⟩
    · have hb' : (node.node_id == st.public_key) = false := by simpa using hb
      by_cases hc : task.status.is_active = true
      · exact ⟨4, by simp [get_next_subtask, ht, hb', hc, hcount]⟩
      · have hc' : task.status.is_active = false := by simpa using hc
        exact ⟨3, by simp [get_next_subtask, ht, hb', hc']⟩

/-- C10 witness: after the failed verification of `"s1"` the provider's
next request is refused even though the App Client reports pending
subtasks. -/
theorem failed_subtask_blocks_provider_witness :
    getUnfinishedSubtasks exAfterFailedVerify "t1" exNode > 0
    ∧ ∃ k, (get_next_subtask exAfterFailedVerify "t1" exNode true true
        exDescriptor 3).2 = .error (.assignmentRefused k) :=
  failed_subtask_blocks_provider exAfterFailedVerify "t1" exNode true true
    exDescriptor 3 { exSubtaskRow with status := SubtaskStatus.failure }
    (by decide) rfl rfl (Or.inl rfl)

/-- C9: a reachable state in which `abortTask` raises an error other than
`TaskNotActive`: the task `"t9"` of app `"a"` is created and started but
never initialized, so no App Client entry for `"a"` exists; aborting it
leaves zero unfinished tasks of `"a"`, the teardown sweep looks up the
absent map entry and fails with `KeyError`, while the task row has already
been moved to `aborted`. -/
theorem abort_uninitialized_key_error :
    (abort_task (start_task (create_task exState0 exParams "ap" "t9" 0).1
        "t9").1 "t9").2.2 = .error (.keyError "a")
    ∧ (findTask (abort_task (start_task
        (create_task exState0 exParams "ap" "t9" 0).1 "t9").1 "t9").1
        "t9").map RequestedTask.status = some TaskStatus.aborted :=
  ⟨rfl, rfl⟩

/-- C1, evaluated at the failing input: with `max_subtasks = 2` and a
single subtask, a successful `verify` still moves the task to `finished`
although only 1 subtask is finished — the source compares the unevaluated
finished-count query object (missing `.scalar()`), which is always truthy,
so the "only if the count is at least `maxSubtasks`" half of the claim is
violated by the code. -/
theorem verify_true_finishes_below_max :
    (verify exAfterAssign "t1" "s1" true true).2.2 = Except.ok true
    ∧ (findTask exFinal "t1").map RequestedTask.status
        = some TaskStatus.finished
    ∧ finishedSubtaskCount exFinal "t1" = 1
    ∧ (findTask exAfterAssign "t1").map RequestedTask.max_subtasks
        = some 2 :=
  ⟨rfl, rfl, rfl, rfl⟩

/-- C2, refuted on a reachable state: after
create → initialize → start → assign → verify(true) on a task with
`max_subtasks = 2`, the store holds a task in `finished` whose finished
subtask count (1) is below its `max_subtasks` (2), because the completion
check of `verify` never evaluates its count query. -/
theorem finished_task_below_max_reachable :
    ∃ t, t ∈ exFinal.tasks ∧ t.status = TaskStatus.finished
      ∧ finishedSubtaskCount exFinal t.task_id < t.max_subtasks :=
  ⟨{ exWaitingRow with status := TaskStatus.finished }, by decide, rfl,
    by decide⟩

end RTM
